import Mathlib

/-!
Shallow embedding of `scripts/build.py` (ai-sdk-cpp build orchestrator).

The script parses CLI options into a build configuration, displays a
configuration table, optionally cleans the build directory, ensures the
build directory exists, invokes the configure tool, invokes the compile
tool, optionally copies `compile_commands.json` to the project root, and
prints a results panel.

We model paths as lists of segments, the filesystem facts the script reads
and writes explicitly, and external process results as an environment
function.  Side-effecting operations are recorded as a trace of events.
-/

namespace BuildPy

/-- Paths are modelled as lists of path segments. -/
abbrev FsPath := List String

/-- Rendering of a path as the string `str(path)` would produce
(segments joined by the separator). -/
def pathStr (p : FsPath) : String := String.intercalate "/" p

/-- Build mode: `click.Choice(["debug", "release"])`; click returns the
canonical declared choice even with `case_sensitive=False`. -/
inductive Mode
  | debug
  | release
deriving DecidableEq, Repr

/-- Python `mode.title()` on the two possible choice strings. -/
def Mode.title : Mode → String
  | .debug => "Debug"
  | .release => "Release"

/-- The CLI options of `main` (`scripts/build.py` lines 51-63):
mode, tests, clean, verbose, export_compile_commands, jobs. -/
structure Config where
  mode : Mode
  tests : Bool
  clean : Bool
  verbose : Bool
  export_compile_commands : Bool
  jobs : Option Int
deriving DecidableEq, Repr

/-- Result of one external process invocation
(`subprocess.CompletedProcess` with `capture_output=True, text=True`). -/
structure CmdResult where
  exitCode : Int
  stdout : String
  stderr : String
deriving DecidableEq, Repr

/-- Outcome of `run_command`: either the completed process is returned, or
the `CalledProcessError` (carrying exit code, stdout, stderr) is caught,
printed, and the script does `sys.exit(1)`. -/
inductive RunOutcome
  | ok (r : CmdResult)
  | exit1 (exitCode : Int) (stdout : String) (stderr : String)
deriving DecidableEq, Repr

/-- Embedding of `run_command` (`scripts/build.py` lines 32-48):
`subprocess.run(cmd, cwd=cwd, check=check, capture_output=True, text=True)`
raises `CalledProcessError` iff `check` and the exit code is non-zero;
the handler prints the error with its captured output and calls
`sys.exit(1)`.  Otherwise the completed process is returned. -/
def run_command (r : CmdResult) (check : Bool := true) : RunOutcome :=
  if check = true ∧ r.exitCode ≠ 0 then
    .exit1 r.exitCode r.stdout r.stderr
  else
    .ok r

/-- Environment of one invocation: facts about the world the script reads.
`run n` is the result of the n-th external command spawned (0 = configure,
1 = compile); `ccContent` is the content of
`build/compile_commands.json` at export time (`none` = absent);
`rootCC0` is the prior content of `<projectRoot>/compile_commands.json`. -/
structure Env where
  cpuCount : Option Nat
  buildDirExists0 : Bool
  ccContent : Option String
  rootCC0 : Option String
  run : Nat → CmdResult

/-- Side-effecting steps the script itself performs, in order. -/
inductive Event
  | rmtree (p : FsPath)
  | mkdir (p : FsPath)
  | runCmd (argv : List String) (cwd : FsPath)
  | copy (src dst : FsPath)
deriving DecidableEq, Repr

/-- The artifact paths listed in the final results panel
(`scripts/build.py` lines 153-177). -/
structure Report where
  library : FsPath
  examples : FsPath
  tests : Option FsPath
deriving DecidableEq, Repr

/-- Terminal outcome of the script process. -/
inductive Outcome
  | attributeError
  | stepFailed (exitCode : Int) (stdout : String) (stderr : String)
  | success (r : Report)
deriving DecidableEq, Repr

/-- Process exit status implied by the outcome: an uncaught
`AttributeError` exits 1, `run_command`'s handler calls `sys.exit(1)`,
and falling off the end of `main` exits 0. -/
def Outcome.processExitCode : Outcome → Int
  | .attributeError => 1
  | .stepFailed _ _ _ => 1
  | .success _ => 0

/-- Result of one run: the event trace, the final content of
`<projectRoot>/compile_commands.json`, and the outcome. -/
structure PipeResult where
  trace : List Event
  rootCC : Option String
  outcome : Outcome
deriving DecidableEq, Repr

/-- The build directory (`scripts/build.py` line 68):
`build_dir = project_root / "build"`. -/
def buildDirOf (projectRoot : FsPath) : FsPath := projectRoot ++ ["build"]

/-- Python `jobs or os.cpu_count() or 4`, right part:
`os.cpu_count() or 4` (`os.cpu_count()` yields `None` or a
machine-dependent count; `0`/`None` are falsy). -/
def fallbackJobs (cpu : Option Nat) : Int :=
  match cpu with
  | some n => if n = 0 then 4 else (n : Int)
  | none => 4

/-- Python `jobs or os.cpu_count() or 4` (`scripts/build.py` line 133):
`None` and `0` are falsy, any other integer is truthy. -/
def resolvedJobs (jobs : Option Int) (cpu : Option Nat) : Int :=
  match jobs with
  | some j => if j = 0 then fallbackJobs cpu else j
  | none => fallbackJobs cpu

/-- The configure argument list (`scripts/build.py` lines 106-118). -/
def cmakeArgs (cfg : Config) (projectRoot : FsPath) : List String :=
  ["cmake", pathStr projectRoot, "-G", "Ninja",
   "-DCMAKE_BUILD_TYPE=" ++ cfg.mode.title,
   "-DBUILD_TESTS=" ++ (if cfg.tests then "ON" else "OFF"),
   "-DBUILD_EXAMPLES=ON"] ++
  (if cfg.export_compile_commands then ["-DCMAKE_EXPORT_COMPILE_COMMANDS=ON"] else [])

/-- The compile argument list (`scripts/build.py` lines 129-133). -/
def buildArgs (cfg : Config) (env : Env) : List String :=
  ["cmake", "--build", "."] ++
  (if cfg.verbose then ["--verbose"] else []) ++
  ["--parallel", toString (resolvedJobs cfg.jobs env.cpuCount)]

/-- The export step (`scripts/build.py` lines 143-148): when requested and
`build/compile_commands.json` exists, `shutil.copy2` it onto
`<projectRoot>/compile_commands.json`; absence is silently skipped.
Returns the copy events and the final root-level file content. -/
def exportStep (cfg : Config) (env : Env) (projectRoot : FsPath) :
    List Event × Option String :=
  if cfg.export_compile_commands then
    match env.ccContent with
    | some c =>
        ([Event.copy (buildDirOf projectRoot ++ ["compile_commands.json"])
            (projectRoot ++ ["compile_commands.json"])], some c)
    | none => ([], env.rootCC0)
  else ([], env.rootCC0)

/-- The results panel (`scripts/build.py` lines 153-177): library at
`build/libai-sdk-cpp.a`, examples at `build/examples/`, and the tests
line only if `tests`. -/
def reportOf (cfg : Config) (projectRoot : FsPath) : Report :=
  { library := buildDirOf projectRoot ++ ["libai-sdk-cpp.a"]
    examples := buildDirOf projectRoot ++ ["examples"]
    tests := if cfg.tests then some (buildDirOf projectRoot ++ ["tests"]) else none }

/-- The clean step (`scripts/build.py` lines 91-96):
`if clean and build_dir.exists(): shutil.rmtree(build_dir)`. -/
def cleanEvents (cfg : Config) (env : Env) (projectRoot : FsPath) : List Event :=
  if cfg.clean = true ∧ env.buildDirExists0 = true then
    [Event.rmtree (buildDirOf projectRoot)]
  else []

/-- Embedding of `main` from the clean step onward
(`scripts/build.py` lines 91-177): clean (only if `clean` and the build
directory exists), `build_dir.mkdir(exist_ok=True)`, configure via
`run_command`, compile via `run_command`, optional export, results panel. -/
def pipeline (cfg : Config) (env : Env) (projectRoot : FsPath) : PipeResult :=
  let bd := buildDirOf projectRoot
  let t2 := cleanEvents cfg env projectRoot ++
    [Event.mkdir bd, Event.runCmd (cmakeArgs cfg projectRoot) bd]
  match run_command (env.run 0) with
  | .exit1 c o e => ⟨t2, env.rootCC0, .stepFailed c o e⟩
  | .ok _ =>
    let t3 := t2 ++ [Event.runCmd (buildArgs cfg env) bd]
    match run_command (env.run 1) with
    | .exit1 c o e => ⟨t3, env.rootCC0, .stepFailed c o e⟩
    | .ok _ =>
      let ex := exportStep cfg env projectRoot
      ⟨t3 ++ ex.1, ex.2, .success (reportOf cfg projectRoot)⟩

/-- Public attribute surface of `rich.table.Table` (rich >= 13): the
attribute names the display section of `main` looks up must come from
this set.  `Table` has `add_column`, `add_row` and `add_section`, but no
attribute named `add`. -/
def tableAttrs : List String :=
  ["title", "caption", "width", "min_width", "box", "safe_box", "padding",
   "pad_edge", "expand", "show_header", "show_footer", "show_edge",
   "show_lines", "leading", "style", "row_styles", "header_style",
   "footer_style", "border_style", "title_style", "caption_style",
   "title_justify", "caption_justify", "highlight", "columns", "rows",
   "grid", "expanded", "row_count", "get_row_style", "padding_setter",
   "add_column", "add_row", "add_section"]

/-- The attribute names looked up on `config_table` in the display section
of `main`, in source order (`scripts/build.py` lines 73-85): two
`add_column` calls, three `add_row` calls, then line 81 evaluates
`config_table.add` — the first lookup of the chain
`config_table.add.add_row` — before any further row is added. -/
def displayLookups : List String :=
  ["add_column", "add_column", "add_row", "add_row", "add_row", "add"]

/-- Embedding of `main` (`scripts/build.py` lines 64-177): the display
section performs only console output and the attribute lookups of
`displayLookups`; the first lookup of a name absent from `tableAttrs`
raises `AttributeError`, which nothing catches, so the process dies with
no event having occurred.  Otherwise the pipeline runs. -/
def main (cfg : Config) (env : Env) (projectRoot : FsPath) : PipeResult :=
  if displayLookups.all (fun a => tableAttrs.contains a) then
    pipeline cfg env projectRoot
  else
    ⟨[], env.rootCC0, .attributeError⟩

/-- The external commands spawned in a trace, in order, with their working
directories. -/
def cmdsRun (t : List Event) : List (List String × FsPath) :=
  t.filterMap (fun e => match e with
    | Event.runCmd argv cwd => some (argv, cwd)
    | _ => none)

/-- Every step of the script addresses the fixed build directory: clean
and ensure target it, both tool invocations run inside it, and the export
copies from inside it to the fixed root-level destination. -/
def eventBuildDirOk (bd : FsPath) (projectRoot : FsPath) : Event → Prop
  | .rmtree p => p = bd
  | .mkdir p => p = bd
  | .runCmd _ cwd => cwd = bd
  | .copy s d => s = bd ++ ["compile_commands.json"] ∧
                 d = projectRoot ++ ["compile_commands.json"]

/-! Helper lemmas: the three normal forms of a pipeline run. -/

/-- A must-succeed `run_command` on a zero exit code returns the result. -/
theorem run_command_ok (r : CmdResult) (h : r.exitCode = 0) :
    run_command r = .ok r := by
  simp [run_command, h]

/-- A must-succeed `run_command` on a non-zero exit code fails, carrying
the exit code and the captured output streams. -/
theorem run_command_fail (r : CmdResult) (h : r.exitCode ≠ 0) :
    run_command r = .exit1 r.exitCode r.stdout r.stderr := by
  simp [run_command, h]

/-- Normal form of a run whose configure command exits non-zero. -/
theorem pipeline_fail0 (cfg : Config) (env : Env) (root : FsPath)
    (h : (env.run 0).exitCode ≠ 0) :
    pipeline cfg env root =
      ⟨cleanEvents cfg env root ++
         [Event.mkdir (buildDirOf root),
          Event.runCmd (cmakeArgs cfg root) (buildDirOf root)],
       env.rootCC0,
       .stepFailed (env.run 0).exitCode (env.run 0).stdout (env.run 0).stderr⟩ := by
  unfold pipeline
  rw [run_command_fail _ h]

/-- Normal form of a run whose configure succeeds and whose compile
command exits non-zero. -/
theorem pipeline_fail1 (cfg : Config) (env : Env) (root : FsPath)
    (h0 : (env.run 0).exitCode = 0) (h1 : (env.run 1).exitCode ≠ 0) :
    pipeline cfg env root =
      ⟨cleanEvents cfg env root ++
         [Event.mkdir (buildDirOf root),
          Event.runCmd (cmakeArgs cfg root) (buildDirOf root),
          Event.runCmd (buildArgs cfg env) (buildDirOf root)],
       env.rootCC0,
       .stepFailed (env.run 1).exitCode (env.run 1).stdout (env.run 1).stderr⟩ := by
  unfold pipeline
  rw [run_command_ok _ h0, run_command_fail _ h1]
  simp

/-- Normal form of a run whose two tool invocations both succeed. -/
theorem pipeline_ok (cfg : Config) (env : Env) (root : FsPath)
    (h0 : (env.run 0).exitCode = 0) (h1 : (env.run 1).exitCode = 0) :
    pipeline cfg env root =
      ⟨cleanEvents cfg env root ++
         [Event.mkdir (buildDirOf root),
          Event.runCmd (cmakeArgs cfg root) (buildDirOf root),
          Event.runCmd (buildArgs cfg env) (buildDirOf root)] ++
         (exportStep cfg env root).1,
       (exportStep cfg env root).2,
       .success (reportOf cfg root)⟩ := by
  unfold pipeline
  rw [run_command_ok _ h0, run_command_ok _ h1]
  simp

/-- The attribute-lookup sequence of the display section hits a name that
`rich.table.Table` does not have (`add`, looked up by
`config_table.add.add_row` on line 81). -/
theorem display_lookup_fails :
    displayLookups.all (fun a => tableAttrs.contains a) = false := by decide

/-- The clean step contributes no external command invocation. -/
theorem cmdsRun_cleanEvents (cfg : Config) (env : Env) (root : FsPath) :
    cmdsRun (cleanEvents cfg env root) = [] := by
  unfold cleanEvents
  split_ifs <;> simp [cmdsRun]

/-- The export step contributes no external command invocation. -/
theorem cmdsRun_exportStep (cfg : Config) (env : Env) (root : FsPath) :
    cmdsRun (exportStep cfg env root).1 = [] := by
  unfold exportStep
  rcases env.ccContent with _ | c <;> split_ifs <;> simp [cmdsRun]

/-- `cmdsRun` distributes over trace concatenation. -/
theorem cmdsRun_append (a b : List Event) :
    cmdsRun (a ++ b) = cmdsRun a ++ cmdsRun b := by
  simp [cmdsRun]

/-- C1: for every combination of mode, tests, clean, verbose,
export_compile_commands and jobs, and every environment, `main` dies in
the configuration-table display evaluating `config_table.add.add_row`
(a rich `Table` has no attribute `add`), so the run ends in
`AttributeError` with an empty event trace: no directory is removed or
created, no external tool is invoked, no file is copied, and the
root-level compile-commands file is untouched. -/
theorem c1_main_always_attribute_error (cfg : Config) (env : Env) (root : FsPath) :
    main cfg env root = ⟨[], env.rootCC0, .attributeError⟩ := by
  unfold main
  rw [display_lookup_fails]
  simp

/-- The exact external command sequence of a pipeline run, by case on the
configure command's exit code. -/
theorem cmdsRun_pipeline (cfg : Config) (env : Env) (root : FsPath) :
    cmdsRun (pipeline cfg env root).trace =
      if (env.run 0).exitCode = 0 then
        [(cmakeArgs cfg root, buildDirOf root),
         (buildArgs cfg env, buildDirOf root)]
      else
        [(cmakeArgs cfg root, buildDirOf root)] := by
  by_cases h0 : (env.run 0).exitCode = 0
  · by_cases h1 : (env.run 1).exitCode = 0
    · rw [pipeline_ok cfg env root h0 h1]
      rw [cmdsRun_append, cmdsRun_append, cmdsRun_cleanEvents cfg env root,
        cmdsRun_exportStep cfg env root]
      simp [h0, cmdsRun]
    · rw [pipeline_fail1 cfg env root h0 h1]
      rw [show (⟨cleanEvents cfg env root ++
            [Event.mkdir (buildDirOf root),
             Event.runCmd (cmakeArgs cfg root) (buildDirOf root),
             Event.runCmd (buildArgs cfg env) (buildDirOf root)],
          env.rootCC0,
          .stepFailed (env.run 1).exitCode (env.run 1).stdout
            (env.run 1).stderr⟩ : PipeResult).trace =
        cleanEvents cfg env root ++
          [Event.mkdir (buildDirOf root),
           Event.runCmd (cmakeArgs cfg root) (buildDirOf root),
           Event.runCmd (buildArgs cfg env) (buildDirOf root)] from rfl]
      rw [cmdsRun_append, cmdsRun_cleanEvents cfg env root]
      simp [h0, cmdsRun]
  · rw [pipeline_fail0 cfg env root h0]
    rw [show (⟨cleanEvents cfg env root ++
          [Event.mkdir (buildDirOf root),
           Event.runCmd (cmakeArgs cfg root) (buildDirOf root)],
        env.rootCC0,
        .stepFailed (env.run 0).exitCode (env.run 0).stdout
          (env.run 0).stderr⟩ : PipeResult).trace =
      cleanEvents cfg env root ++
        [Event.mkdir (buildDirOf root),
         Event.runCmd (cmakeArgs cfg root) (buildDirOf root)] from rfl]
    rw [cmdsRun_append, cmdsRun_cleanEvents cfg env root]
    simp [h0, cmdsRun]

/-- C2: in the orchestration pipeline (`scripts/build.py` lines 91-177)
the sequence of external commands is exactly: the configure invocation
alone when it fails, and the configure invocation followed by the compile
invocation when it succeeds — configure always precedes compile, and a
failed configure short-circuits the run with no compile invocation. -/
theorem c2_configure_before_compile (cfg : Config) (env : Env) (root : FsPath) :
    cmdsRun (pipeline cfg env root).trace =
      if (env.run 0).exitCode = 0 then
        [(cmakeArgs cfg root, buildDirOf root),
         (buildArgs cfg env, buildDirOf root)]
      else
        [(cmakeArgs cfg root, buildDirOf root)] :=
  cmdsRun_pipeline cfg env root

/-- C3: whenever a must-succeed command exits non-zero, `run_command`
fails carrying that exit code with the captured stdout and stderr, the
pipeline's trace ends at that very invocation (no later step runs), no
report is produced, and the process exit status is non-zero. -/
theorem c3_must_succeed_failure_aborts (cfg : Config) (env : Env) (root : FsPath) :
    ((env.run 0).exitCode ≠ 0 →
      run_command (env.run 0) =
        .exit1 (env.run 0).exitCode (env.run 0).stdout (env.run 0).stderr ∧
      (pipeline cfg env root).trace =
        cleanEvents cfg env root ++
          [Event.mkdir (buildDirOf root),
           Event.runCmd (cmakeArgs cfg root) (buildDirOf root)] ∧
      (pipeline cfg env root).outcome =
        .stepFailed (env.run 0).exitCode (env.run 0).stdout (env.run 0).stderr ∧
      (∀ r, (pipeline cfg env root).outcome ≠ .success r) ∧
      (pipeline cfg env root).outcome.processExitCode ≠ 0) ∧
    ((env.run 0).exitCode = 0 → (env.run 1).exitCode ≠ 0 →
      run_command (env.run 1) =
        .exit1 (env.run 1).exitCode (env.run 1).stdout (env.run 1).stderr ∧
      (pipeline cfg env root).trace =
        cleanEvents cfg env root ++
          [Event.mkdir (buildDirOf root),
           Event.runCmd (cmakeArgs cfg root) (buildDirOf root),
           Event.runCmd (buildArgs cfg env) (buildDirOf root)] ∧
      (pipeline cfg env root).outcome =
        .stepFailed (env.run 1).exitCode (env.run 1).stdout (env.run 1).stderr ∧
      (∀ r, (pipeline cfg env root).outcome ≠ .success r) ∧
      (pipeline cfg env root).outcome.processExitCode ≠ 0) := by
  constructor
  · intro h0
    rw [run_command_fail _ h0, pipeline_fail0 cfg env root h0]
    simp [Outcome.processExitCode]
  · intro h0 h1
    rw [run_command_fail _ h1, pipeline_fail1 cfg env root h0 h1]
    simp [Outcome.processExitCode]

/-- C4: in every run, the first external command spawned is the configure
invocation, whose argument list is exactly the configure tool, the
project root, the Ninja generator flag, the build-type define with the
mode's first letter capitalized, a BUILD_TESTS define that is ON iff
tests, the always-present BUILD_EXAMPLES=ON define, and — only when
export_compile_commands — the compile-commands-export define; its
working directory is the build directory. -/
theorem c4_configure_invocation_args (cfg : Config) (env : Env) (root : FsPath) :
    (cmdsRun (pipeline cfg env root).trace).head? =
      some (["cmake", pathStr root, "-G", "Ninja",
             "-DCMAKE_BUILD_TYPE=" ++ cfg.mode.title,
             "-DBUILD_TESTS=" ++ (if cfg.tests then "ON" else "OFF"),
             "-DBUILD_EXAMPLES=ON"] ++
            (if cfg.export_compile_commands then
               ["-DCMAKE_EXPORT_COMPILE_COMMANDS=ON"] else []),
            buildDirOf root) ∧
    Mode.title .debug = "Debug" ∧ Mode.title .release = "Release" := by
  refine ⟨?_, rfl, rfl⟩
  rw [cmdsRun_pipeline cfg env root]
  split_ifs <;> simp [cmakeArgs, *]

/-- C5: whenever the configure command succeeds, the second external
command spawned is the compile invocation, whose argument list is exactly
the build tool with `--build .`, then `--verbose` iff verbose, always
ending with `--parallel <N>` where N is the resolved job count; its
working directory is the build directory. -/
theorem c5_compile_invocation_args (cfg : Config) (env : Env) (root : FsPath)
    (h0 : (env.run 0).exitCode = 0) :
    (cmdsRun (pipeline cfg env root).trace)[1]? =
      some (["cmake", "--build", "."] ++
            (if cfg.verbose then ["--verbose"] else []) ++
            ["--parallel", toString (resolvedJobs cfg.jobs env.cpuCount)],
            buildDirOf root) := by
  rw [cmdsRun_pipeline cfg env root]
  simp [h0, buildArgs]

/-- The export step never removes a directory. -/
theorem rmtree_not_in_exportStep (cfg : Config) (env : Env) (root : FsPath)
    (p : FsPath) : Event.rmtree p ∉ (exportStep cfg env root).1 := by
  unfold exportStep
  rcases env.ccContent with _ | c <;> split_ifs <;> simp

/-- C6: with clean unset the pipeline never removes any directory — the
only removal event is gated on the clean flag — and the ensure step is
idempotent: the build directory is created with `exist_ok`, and whether
it already existed has no influence whatsoever on the run. -/
theorem c6_no_clean_no_delete (cfg : Config) (env : Env) (root : FsPath)
    (h : cfg.clean = false) :
    (∀ p, Event.rmtree p ∉ (pipeline cfg env root).trace) ∧
    Event.mkdir (buildDirOf root) ∈ (pipeline cfg env root).trace ∧
    pipeline cfg { env with buildDirExists0 := true } root =
      pipeline cfg { env with buildDirExists0 := false } root := by
  refine ⟨?_, ?_, ?_⟩
  · intro p
    by_cases h0 : (env.run 0).exitCode = 0
    · by_cases h1 : (env.run 1).exitCode = 0
      · rw [pipeline_ok cfg env root h0 h1]
        simp [cleanEvents, h, rmtree_not_in_exportStep cfg env root p]
      · rw [pipeline_fail1 cfg env root h0 h1]
        simp [cleanEvents, h]
    · rw [pipeline_fail0 cfg env root h0]
      simp [cleanEvents, h]
  · by_cases h0 : (env.run 0).exitCode = 0
    · by_cases h1 : (env.run 1).exitCode = 0
      · rw [pipeline_ok cfg env root h0 h1]
        simp
      · rw [pipeline_fail1 cfg env root h0 h1]
        simp
    · rw [pipeline_fail0 cfg env root h0]
      simp
  · by_cases h0 : (env.run 0).exitCode = 0
    · by_cases h1 : (env.run 1).exitCode = 0
      · rw [pipeline_ok cfg { env with buildDirExists0 := true } root h0 h1,
          pipeline_ok cfg { env with buildDirExists0 := false } root h0 h1]
        simp [cleanEvents, h, buildArgs, exportStep, reportOf]
      · rw [pipeline_fail1 cfg { env with buildDirExists0 := true } root h0 h1,
          pipeline_fail1 cfg { env with buildDirExists0 := false } root h0 h1]
        simp [cleanEvents, h, buildArgs]
    · rw [pipeline_fail0 cfg { env with buildDirExists0 := true } root h0,
        pipeline_fail0 cfg { env with buildDirExists0 := false } root h0]
      simp [cleanEvents, h]

/-- C7: with export requested and both tool invocations succeeding, the
run succeeds; when `build/compile_commands.json` exists it is copied onto
the fixed root-level destination, whose content becomes the copied
content (overwriting any prior copy); when it is absent no copy happens,
the root-level file is untouched, and the run still succeeds. -/
theorem c7_export_copy_or_skip (cfg : Config) (env : Env) (root : FsPath)
    (hx : cfg.export_compile_commands = true)
    (h0 : (env.run 0).exitCode = 0) (h1 : (env.run 1).exitCode = 0) :
    (pipeline cfg env root).outcome = .success (reportOf cfg root) ∧
    (∀ c, env.ccContent = some c →
        Event.copy (buildDirOf root ++ ["compile_commands.json"])
            (root ++ ["compile_commands.json"]) ∈ (pipeline cfg env root).trace ∧
        (pipeline cfg env root).rootCC = some c) ∧
    (env.ccContent = none →
        (∀ s d, Event.copy s d ∉ (pipeline cfg env root).trace) ∧
        (pipeline cfg env root).rootCC = env.rootCC0) := by
  rw [pipeline_ok cfg env root h0 h1]
  refine ⟨rfl, ?_, ?_⟩
  · intro c hc
    simp [exportStep, hx, hc]
  · intro hc
    refine ⟨?_, ?_⟩
    · intro s d
      simp [cleanEvents, exportStep, hx, hc]
    · simp [exportStep, hx, hc]

/-- C8: when jobs is unset the resolved parallel-job count is the
detected CPU count (with the fixed fallback 4 when detection yields
nothing) and is always strictly positive, and it is exactly the value the
compile argument list passes after `--parallel`. -/
theorem c8_default_jobs_positive (cfg : Config) (env : Env)
    (h : cfg.jobs = none) :
    0 < resolvedJobs cfg.jobs env.cpuCount ∧
    (env.cpuCount = none → resolvedJobs cfg.jobs env.cpuCount = 4) ∧
    buildArgs cfg env =
      ["cmake", "--build", "."] ++
      (if cfg.verbose then ["--verbose"] else []) ++
      ["--parallel", toString (resolvedJobs cfg.jobs env.cpuCount)] := by
  refine ⟨?_, ?_, rfl⟩
  · rw [h]
    unfold resolvedJobs fallbackJobs
    rcases env.cpuCount with _ | n
    · norm_num
    · by_cases hn : n = 0
      · simp [hn]
      · simp [hn]
        omega
  · intro hc
    rw [h, hc]
    rfl

/-- C9: a report is produced only when both tool invocations succeeded; it
lists the library artifact path and the examples directory path, and it
lists the tests directory path iff tests was requested. -/
theorem c9_report_contents (cfg : Config) (env : Env) (root : FsPath)
    (r : Report) (h : (pipeline cfg env root).outcome = .success r) :
    r.library = buildDirOf root ++ ["libai-sdk-cpp.a"] ∧
    r.examples = buildDirOf root ++ ["examples"] ∧
    (r.tests = some (buildDirOf root ++ ["tests"]) ↔ cfg.tests = true) ∧
    (cfg.tests = false → r.tests = none) ∧
    (env.run 0).exitCode = 0 ∧ (env.run 1).exitCode = 0 := by
  by_cases h0 : (env.run 0).exitCode = 0
  · by_cases h1 : (env.run 1).exitCode = 0
    · rw [pipeline_ok cfg env root h0 h1] at h
      simp only [Outcome.success.injEq] at h
      subst h
      refine ⟨rfl, rfl, ?_, ?_, h0, h1⟩
      · rcases ht : cfg.tests <;> simp [reportOf, ht]
      · intro ht
        simp [reportOf, ht]
    · rw [pipeline_fail1 cfg env root h0 h1] at h
      exact absurd h (by simp)
  · rw [pipeline_fail0 cfg env root h0] at h
    exact absurd h (by simp)

/-- Each event of the clean step addresses the build directory. -/
theorem cleanEvents_buildDir (cfg : Config) (env : Env) (root : FsPath) :
    ∀ e ∈ cleanEvents cfg env root, eventBuildDirOk (buildDirOf root) root e := by
  unfold cleanEvents
  split_ifs <;> intro e he <;> simp at he
  subst he
  simp [eventBuildDirOk]

/-- Each event of the export step copies from inside the build directory
to the fixed root-level destination. -/
theorem exportStep_buildDir (cfg : Config) (env : Env) (root : FsPath) :
    ∀ e ∈ (exportStep cfg env root).1,
      eventBuildDirOk (buildDirOf root) root e := by
  unfold exportStep
  rcases env.ccContent with _ | c <;> split_ifs <;> intro e he <;> simp at he
  subst he
  simp [eventBuildDirOk]

/-- C10: the build directory is exactly the fixed subdirectory `build` of
the project root — derived from the script's own location, not from any
CLI option — and every step of every run addresses it: the clean and
ensure steps target it, both tool invocations run inside it, and the
export step copies from inside it to the fixed root-level destination. -/
theorem c10_fixed_build_dir (cfg : Config) (env : Env) (root : FsPath) :
    buildDirOf root = root ++ ["build"] ∧
    ∀ e ∈ (pipeline cfg env root).trace,
      eventBuildDirOk (buildDirOf root) root e := by
  refine ⟨rfl, ?_⟩
  have hmid : ∀ e ∈ [Event.mkdir (buildDirOf root),
      Event.runCmd (cmakeArgs cfg root) (buildDirOf root),
      Event.runCmd (buildArgs cfg env) (buildDirOf root)],
      eventBuildDirOk (buildDirOf root) root e := by
    intro e he
    simp at he
    rcases he with he | he | he <;> subst he <;> simp [eventBuildDirOk]
  by_cases h0 : (env.run 0).exitCode = 0
  · by_cases h1 : (env.run 1).exitCode = 0
    · rw [pipeline_ok cfg env root h0 h1]
      refine List.forall_mem_append.mpr ⟨List.forall_mem_append.mpr
        ⟨cleanEvents_buildDir cfg env root, hmid⟩,
        exportStep_buildDir cfg env root⟩
    · rw [pipeline_fail1 cfg env root h0 h1]
      exact List.forall_mem_append.mpr
        ⟨cleanEvents_buildDir cfg env root, hmid⟩
  · rw [pipeline_fail0 cfg env root h0]
    refine List.forall_mem_append.mpr
      ⟨cleanEvents_buildDir cfg env root, ?_⟩
    intro e he
    simp at he
    rcases he with he | he <;> subst he <;> simp [eventBuildDirOk]

/-! Concrete instances of the theorems above. -/

/-- A sample project root. -/
def rootW : FsPath := ["repo"]

/-- A sample configuration: release mode with tests, verbose output and
compile-commands export, no clean, jobs unset. -/
def cfgW : Config := ⟨Mode.release, true, false, true, true, none⟩

/-- A sample environment where both tool invocations succeed and the
compile-commands file is generated. -/
def envOkW : Env := ⟨some 8, true, some "ccdata", some "old", fun _ => ⟨0, "", ""⟩⟩

/-- A sample environment where the configure command exits with code 2. -/
def envFail0W : Env := ⟨some 8, true, none, none, fun _ => ⟨2, "out", "err"⟩⟩

/-- A sample environment where configure succeeds and the compile command
exits with code 3. -/
def envFail1W : Env :=
  ⟨some 8, false, none, none,
   fun n => if n = 0 then ⟨0, "", ""⟩ else ⟨3, "so", "se"⟩⟩

/-- Witness for C3: a failing configure yields the configure step's error
data, and a failing compile yields the compile step's error data. -/
theorem c3_witness :
    (pipeline cfgW envFail0W rootW).outcome = .stepFailed 2 "out" "err" ∧
    (pipeline cfgW envFail1W rootW).outcome = .stepFailed 3 "so" "se" :=
  ⟨((c3_must_succeed_failure_aborts cfgW envFail0W rootW).1 (by decide)).2.2.1,
   ((c3_must_succeed_failure_aborts cfgW envFail1W rootW).2 (by decide)
      (by decide)).2.2.1⟩

/-- Witness for C5: the second command of a successful sample run. -/
theorem c5_witness :
    (cmdsRun (pipeline cfgW envOkW rootW).trace)[1]? =
      some (["cmake", "--build", "."] ++
            (if cfgW.verbose then ["--verbose"] else []) ++
            ["--parallel", toString (resolvedJobs cfgW.jobs envOkW.cpuCount)],
            buildDirOf rootW) :=
  c5_compile_invocation_args cfgW envOkW rootW (by decide)

/-- Witness for C6 at a clean-less sample configuration. -/
theorem c6_witness :
    (∀ p, Event.rmtree p ∉ (pipeline cfgW envOkW rootW).trace) ∧
    Event.mkdir (buildDirOf rootW) ∈ (pipeline cfgW envOkW rootW).trace ∧
    pipeline cfgW { envOkW with buildDirExists0 := true } rootW =
      pipeline cfgW { envOkW with buildDirExists0 := false } rootW :=
  c6_no_clean_no_delete cfgW envOkW rootW rfl

/-- Witness for C7: in the successful sample run the generated
compile-commands file is copied and overwrites the old root-level copy. -/
theorem c7_witness :
    (pipeline cfgW envOkW rootW).outcome = .success (reportOf cfgW rootW) ∧
    Event.copy (buildDirOf rootW ++ ["compile_commands.json"])
        (rootW ++ ["compile_commands.json"]) ∈ (pipeline cfgW envOkW rootW).trace ∧
    (pipeline cfgW envOkW rootW).rootCC = some "ccdata" := by
  have h := c7_export_copy_or_skip cfgW envOkW rootW rfl rfl rfl
  exact ⟨h.1, (h.2.1 "ccdata" rfl).1, (h.2.1 "ccdata" rfl).2⟩

/-- Witness for C8 at the sample configuration with jobs unset. -/
theorem c8_witness :
    0 < resolvedJobs cfgW.jobs envOkW.cpuCount ∧
    (envOkW.cpuCount = none → resolvedJobs cfgW.jobs envOkW.cpuCount = 4) ∧
    buildArgs cfgW envOkW =
      ["cmake", "--build", "."] ++
      (if cfgW.verbose then ["--verbose"] else []) ++
      ["--parallel", toString (resolvedJobs cfgW.jobs envOkW.cpuCount)] :=
  c8_default_jobs_positive cfgW envOkW rfl

/-- Witness for C9: the report of the successful sample run. -/
theorem c9_witness :
    (reportOf cfgW rootW).library = buildDirOf rootW ++ ["libai-sdk-cpp.a"] ∧
    (reportOf cfgW rootW).examples = buildDirOf rootW ++ ["examples"] ∧
    ((reportOf cfgW rootW).tests = some (buildDirOf rootW ++ ["tests"]) ↔
      cfgW.tests = true) ∧
    (cfgW.tests = false → (reportOf cfgW rootW).tests = none) ∧
    (envOkW.run 0).exitCode = 0 ∧ (envOkW.run 1).exitCode = 0 :=
  c9_report_contents cfgW envOkW rootW (reportOf cfgW rootW) rfl

/-- Witness for C10 at the sample run. -/
theorem c10_witness :
    buildDirOf rootW = rootW ++ ["build"] ∧
    ∀ e ∈ (pipeline cfgW envOkW rootW).trace,
      eventBuildDirOk (buildDirOf rootW) rootW e :=
  c10_fixed_build_dir cfgW envOkW rootW

end BuildPy
